import Mathlib

/-!
Verification of the flat-listing monitor (`main.py`).

The pipeline scrapes listings, extracts structured records, diffs them
against a persisted CSV catalog, filters the unseen ones against
configured criteria and dispatches Telegram notifications.  The pure
logic of each stage is embedded below; effectful boundaries (the web
driver, the Telegram transport, the OSM geocoder, the file system) are
modelled by explicit parameters: a list of raw items stands for the
fetched page, a `String → Bool` oracle stands for the transport
succeeding per recipient, a list of lookup outcomes stands for the
geocoder's successive responses, and file contents are passed and
returned as values.

Decimal numbers (Python `float` values parsed from listing text) are
modelled as `Rat`: every number the program manipulates is a finite
decimal and the claims are about comparisons and equalities, not about
rounding of binary floating point.
-/

namespace CheckForUpdate

/-- A structured listing record, the dict built by `get_listing_details`
(fields `listing_id`, `number_rooms`, `size_qm`, `base_rent`, `address`,
`district`, `has_balkony`, `weblink`, `wbs_required`). -/
structure Listing where
  listing_id : String
  number_rooms : Rat
  size_qm : Rat
  base_rent : Rat
  address : String
  district : String
  has_balkony : Bool
  weblink : String
  wbs_required : Bool
deriving DecidableEq, Repr, Inhabited

/-- The filter configuration read at process start: `MINIMAL_SIZE`,
`MAXIMAL_BASE_RENT`, `HAS_BALKONY` and the `forbidden_districts` list
loaded from `berlin_districts.yaml`.  `HAS_BALKONY` is the raw value of
`os.getenv("HAS_BALKONY")` (line 39): a string, or `None` when the
variable is unset, never converted to a bool.  The permit (WBS) room
limit is the literal `2` in the code, not a field here. -/
structure FilterConfig where
  minimal_size : Rat
  maximal_base_rent : Rat
  has_balkony : Option String
  forbidden_districts : List String
deriving DecidableEq, Repr

/-- Python `==` between a `bool` value and the `str`-or-`None` value
that `os.getenv` returns: operands of these types are never equal in
Python (`bool.__eq__` returns `NotImplemented` for a non-int operand
and the fallback identity comparison fails), so the comparison is
constantly `false` whatever the two values are. -/
def py_eq_bool_str (_flag : Bool) (_env : Option String) : Bool := false

/-- The five filter criteria of `monitor_changes` (lines 100-116):
`size_criterion and base_rent_criterion and balkony_criterion and
district_criterion and wbs_criterion`, each criterion translated from
the corresponding boolean expression in the loop body.  The balcony
criterion (line 105) compares the bool flag `has_balkony` to the env
string `HAS_BALKONY` with Python `==`, embedded by `py_eq_bool_str`. -/
def passes_filter (cfg : FilterConfig) (l : Listing) : Bool :=
  let size_criterion := decide (cfg.minimal_size ≤ l.size_qm)
  let base_rent_criterion := decide (l.base_rent ≤ cfg.maximal_base_rent)
  let district_criterion := decide (l.district ∉ cfg.forbidden_districts)
  let balkony_criterion := py_eq_bool_str l.has_balkony cfg.has_balkony
  let wbs_criterion := !l.wbs_required || decide (l.number_rooms ≤ 2)
  size_criterion && base_rent_criterion && balkony_criterion &&
    district_criterion && wbs_criterion

/-- The change-detection comprehension of `monitor_changes` (lines
86-90): keep the fetched listings whose `listing_id` is not among the
ids read from the catalog CSV. -/
def diff (current : List Listing) (old_ids : List String) : List Listing :=
  current.filter (fun l => decide (l.listing_id ∉ old_ids))

/-- The first-run branch of `monitor_changes` (lines 73-76): when the
catalog CSV does not exist, fetch once and persist the whole batch
(when non-empty) without filtering or notifying.  Returns the listings
persisted during this initialisation. -/
def first_run_init (csv_exists : Bool) (fetched : List Listing) :
    List Listing :=
  if csv_exists then []
  else if fetched.isEmpty then [] else fetched

/-- One iteration of the `while True` loop of `monitor_changes` (lines
78-125): read the known ids, fetch, diff, persist the unseen listings,
filter them and, when any pass, dispatch one notification.  Returns the
listings appended to the catalog in this cycle and the list of relevant
listings handed to `write_telegram_message` (`none` when no message is
sent: empty fetch, no unseen listings, or none passing the filter). -/
def monitor_cycle (cfg : FilterConfig) (old_ids : List String)
    (current : List Listing) : List Listing × Option (List Listing) :=
  if current.isEmpty then ([], none)
  else
    let new_listings := diff current old_ids
    if new_listings.isEmpty then ([], none)
    else
      let new_relevant_listings := new_listings.filter (passes_filter cfg)
      (new_listings,
        if new_relevant_listings.isEmpty then none
        else some new_relevant_listings)

/-- The Google-Maps link derived in `_maps_link`: spaces of the address
become plus signs in the query. -/
def maps_link (address : String) : String :=
  "https://www.google.com/maps/search/?api=1&query=" ++
    address.replace " " "+"

/-- The per-listing template of `_assemble_message` in
`write_telegram_message`.  Numeric fields are rendered with Lean's
`toString` on `Rat` where Python uses `str` on `float`; the claims
about dispatch concern the list structure of the composed message, not
the digit rendering. -/
def assemble_message (l : Listing) : String :=
  "New Interesting Listing: \n\n" ++
  "Listing ID: " ++ l.listing_id ++ "\n" ++
  "Rooms: " ++ toString l.number_rooms ++ "\n" ++
  "Size: " ++ toString l.size_qm ++ " m²\n" ++
  "Base Rent: €" ++ toString l.base_rent ++ "\n" ++
  "Balcony: " ++ (if l.has_balkony then "Yes" else "No") ++ "\n" ++
  "Address: <a href='" ++ maps_link l.address ++ "'>" ++ l.address ++
    "</a>\n" ++
  "District: " ++ l.district ++ "\n" ++
  "Link: " ++ l.weblink ++ "\n\n"

/-- The truncation branch of `write_telegram_message` (lines 388-394):
fewer than 5 listings are all rendered; otherwise the first 5 are
rendered and one trailing line counts the rest. -/
def compose_messages (interesting_listings : List Listing) : List String :=
  if interesting_listings.length < 5 then
    interesting_listings.map assemble_message
  else
    (interesting_listings.take 5).map assemble_message ++
      ["and " ++ toString (interesting_listings.length - 5) ++
        " more listings were truncated."]

/-- The recipient loop of `write_telegram_message` (lines 396-404): the
`try` block wraps the whole `for user_id in user_ids` loop, so the
first send that raises jumps to the `except` handler and ends the
function.  `sendOk` tells whether the transport succeeds for a
recipient; the result is the list of recipients actually attempted, in
order, and whether every send succeeded. -/
def send_messages (sendOk : String → Bool) : List String → List String × Bool
  | [] => ([], true)
  | u :: rest =>
    if sendOk u then
      let r := send_messages sendOk rest
      (u :: r.1, r.2)
    else ([u], false)

/-- `_remove_thousand_separator` of `get_listing_details`: drop every
dot from the value. -/
def remove_thousand_separator (value : String) : String :=
  String.mk (value.data.filter (fun c => c ≠ '.'))

/-- `_convert_decimal_separator` of `get_listing_details`: turn every
comma into a dot. -/
def convert_decimal_separator (value : String) : String :=
  String.mk (value.data.map (fun c => if c = ',' then '.' else c))

/-- Python `str.split(sep)` for a one-character separator,
left-to-right over the characters. -/
def split_on_char_aux (sep : Char) : List Char → List Char → List String
  | [], acc => [String.mk acc.reverse]
  | c :: rest, acc =>
    if c = sep then String.mk acc.reverse :: split_on_char_aux sep rest []
    else split_on_char_aux sep rest (c :: acc)

/-- `s.split(sep)` for a one-character separator. -/
def split_on_char (sep : Char) (s : String) : List String :=
  split_on_char_aux sep s.data []

/-- The value of an all-digit character run, base 10. -/
def digits_to_nat (l : List Char) : Nat :=
  l.foldl (fun n c => n * 10 + (c.toNat - Char.toNat '0')) 0

/-- Python `value.split(" ")[0]`: the characters before the first
space. -/
def space_head_token (s : String) : String :=
  String.mk (s.data.takeWhile (fun c => c ≠ ' '))

/-- Python's `float` constructor restricted to the unsigned decimal
literals the extractor feeds it: an optional dot between two runs of
digits (at least one digit overall).  Any other string — in particular
one with two dots, as produced when a thousands separator survives
normalisation — raises `ValueError`, modelled as `none`. -/
def python_float (s : String) : Option Rat :=
  match split_on_char '.' s with
  | [intPart] =>
    if intPart ≠ "" ∧ intPart.data.all Char.isDigit then
      some ((digits_to_nat intPart.data : Nat) : Rat)
    else none
  | [intPart, fracPart] =>
    if (intPart ≠ "" ∨ fracPart ≠ "") ∧ intPart.data.all Char.isDigit ∧
        fracPart.data.all Char.isDigit then
      some (((digits_to_nat intPart.data : Nat) : Rat) +
        ((digits_to_nat fracPart.data : Nat) : Rat) /
          (10 : Rat) ^ fracPart.data.length)
    else none
  | _ => none

/-- Extraction of `number_rooms` (line 209): first space-separated token
of the field, decimal comma converted, then `float`. -/
def parse_rooms (field : String) : Option Rat :=
  python_float (convert_decimal_separator (space_head_token field))

/-- Extraction of `size_qm` (line 210): identical normalisation to
`parse_rooms` — the thousands separator is not removed. -/
def parse_size (field : String) : Option Rat :=
  python_float (convert_decimal_separator (space_head_token field))

/-- Extraction of `base_rent` (lines 211-215): first token, thousands
separator removed, then decimal comma converted, then `float`. -/
def parse_rent (field : String) : Option Rat :=
  python_float (convert_decimal_separator
    (remove_thousand_separator (space_head_token field)))

/-- Left-to-right scan implementing `re.split` on the pattern matching
", " or "| " (line 203). -/
def split_fields_aux : List Char → List Char → List String
  | [], acc => [String.mk acc.reverse]
  | ',' :: ' ' :: rest, acc =>
    String.mk acc.reverse :: split_fields_aux rest []
  | '|' :: ' ' :: rest, acc =>
    String.mk acc.reverse :: split_fields_aux rest []
  | c :: rest, acc => split_fields_aux rest (c :: acc)

/-- `re.split` on ", " or "| " applied to a listing's text. -/
def re_split_fields (s : String) : List String :=
  split_fields_aux s.data []

/-- A raw scraped element as `get_listing_details` consumes it: its
text, its `id` attribute, whether the balcony and WBS sub-elements are
present (`find_elements` non-empty) and the link of its anchor
sub-element. -/
structure RawItem where
  text : String
  attr_id : String
  has_balkony_elem : Bool
  link : String
  has_wbs_elem : Bool
deriving DecidableEq, Repr

/-- Outcome of one call to `get_listing_details`: a listing dict, the
empty dict `{}` returned on fewer than 4 text fields (line 206), or a
raised `ValueError` from a failed `float` conversion. -/
inductive DetailsResult where
  | ok (l : Listing)
  | empty
  | error
deriving DecidableEq, Repr

/-- `get_listing_details` (lines 187-240).  `resolver` stands for
`get_district_from_osm` as the extractor calls it on the address plus
" Berlin"; text with fewer than 4 split fields yields the empty dict;
a field on which `float` fails raises, modelled as `error`. -/
def get_listing_details (resolver : String → String) (item : RawItem) :
    DetailsResult :=
  let text_items := re_split_fields item.text
  if text_items.length < 4 then DetailsResult.empty
  else
    match parse_rooms (text_items.getD 0 ""),
        parse_size (text_items.getD 1 ""),
        parse_rent (text_items.getD 2 "") with
    | some rooms, some size, some base_rent =>
      let address := text_items.getD 3 ""
      let location :=
        if text_items.length = 5 then text_items.getLastD ""
        else if address ≠ "" then resolver (address ++ " Berlin")
        else "Unknown"
      DetailsResult.ok
        { listing_id := item.attr_id, number_rooms := rooms,
          size_qm := size, base_rent := base_rent, address := address,
          district := location, has_balkony := item.has_balkony_elem,
          weblink := item.link, wbs_required := item.has_wbs_elem }
    | _, _, _ => DetailsResult.error

/-- The extraction loop of `get_listings` (lines 173-180): each raw
item is processed in a `try` block; an exception is logged and the item
skipped, while any returned dict — the empty dict `{}` included — is
appended to the batch result.  `some l` models a listing dict and
`none` models the appended empty dict. -/
def get_listings (resolver : String → String) (items : List RawItem) :
    List (Option Listing) :=
  match items with
  | [] => []
  | item :: rest =>
    match get_listing_details resolver item with
    | DetailsResult.ok l => some l :: get_listings resolver rest
    | DetailsResult.empty => none :: get_listings resolver rest
    | DetailsResult.error => get_listings resolver rest

/-- Outcome of one `requests.get` call in `get_district_from_osm`: a
read timeout, any other raised error (connection error, JSON decode
failure, missing key, empty result list — everything the generic
`except` catches), or a response whose first result's `display_name`
split on ", " gives the listed components. -/
inductive OsmOutcome where
  | timeout
  | failure
  | response (display_components : List String)
deriving DecidableEq, Repr

/-- Whether an outcome takes the generic `except` branch of
`get_district_from_osm`: any non-timeout error, or a response with
fewer than 5 address components (so `osm_address[-5]` raises
`IndexError`). -/
def osm_permanent_failure : OsmOutcome → Bool
  | OsmOutcome.timeout => false
  | OsmOutcome.failure => true
  | OsmOutcome.response comps => decide (comps.length < 5)

/-- The retry loop of `get_district_from_osm` (lines 265-283) over the
successive outcomes of its network calls: a timeout consumes one retry,
any other error appends the address to the unresolved cache (persisted
immediately by `_save_invalid_addresses`) and returns "Unknown", and a
response with at least 5 components returns the component 5 from the
end.  Returns the district, the updated cache and the number of
network calls made. -/
def osm_attempt_loop (address : String) :
    List OsmOutcome → List String → String × List String × Nat
  | [], cache => ("Unknown", cache, 0)
  | o :: rest, cache =>
    match o with
    | OsmOutcome.timeout =>
      let r := osm_attempt_loop address rest cache
      (r.1, r.2.1, r.2.2 + 1)
    | OsmOutcome.failure => ("Unknown", cache ++ [address], 1)
    | OsmOutcome.response comps =>
      if 5 ≤ comps.length then
        (comps.getD (comps.length - 5) "", cache, 1)
      else ("Unknown", cache ++ [address], 1)

/-- `get_district_from_osm` (lines 243-285): a cache hit skips the loop
entirely and falls through to the final `return "Unknown"`; otherwise
the retry loop runs for at most 3 attempts (`while retry <= 2`), and
exhausting the retries on timeouts also falls through to
`return "Unknown"` without touching the cache. -/
def get_district_from_osm (outcomes : List OsmOutcome) (address : String)
    (cache : List String) : String × List String × Nat :=
  if address ∈ cache then ("Unknown", cache, 0)
  else osm_attempt_loop address (outcomes.take 3) cache

/-- The CSV header of `save_listings_to_csv`: the keys of the first
listing dict, in the insertion order of `get_listing_details`, plus
`timestamp` (line 322). -/
def listing_fieldnames : List String :=
  ["listing_id", "number_rooms", "size_qm", "base_rent", "address",
   "district", "has_balkony", "weblink", "wbs_required", "timestamp"]

/-- One CSV data row written by `save_listings_to_csv`: the listing's
fields plus the cycle timestamp.  Booleans and numbers are rendered
with Lean's `toString` where Python uses `str`. -/
def csv_row (timestamp : String) (l : Listing) : List String :=
  [l.listing_id, toString l.number_rooms, toString l.size_qm,
   toString l.base_rent, l.address, l.district, toString l.has_balkony,
   l.weblink, toString l.wbs_required, timestamp]

/-- `save_listings_to_csv` (lines 313-339) acting on the catalog file
modelled as a list of rows.  On an empty input list, the expression
`listings[0].keys()` at line 322 raises an uncaught `IndexError` (it
sits before the `try` block), modelled as `Except.error`; otherwise the
file gains a header first when it did not exist, then one row per
listing, in append mode. -/
def save_listings_to_csv (file_exists : Bool)
    (file_rows : List (List String)) (timestamp : String)
    (listings : List Listing) : Except String (List (List String)) :=
  match listings with
  | [] => Except.error "IndexError: list index out of range"
  | _ :: _ =>
    Except.ok (file_rows ++
      ((if file_exists then [] else [listing_fieldnames]) ++
        listings.map (csv_row timestamp)))

/-- Sample listing with id "A1" used in concrete witnesses. -/
def sampleA1 : Listing :=
  { listing_id := "A1", number_rooms := 2, size_qm := 50,
    base_rent := 700, address := "Astr. 1", district := "Mitte",
    has_balkony := false, weblink := "http://a", wbs_required := false }

/-- Sample listing with id "B2" used in concrete witnesses. -/
def sampleB2 : Listing :=
  { listing_id := "B2", number_rooms := 2, size_qm := 50,
    base_rent := 700, address := "Bstr. 2", district := "Mitte",
    has_balkony := false, weblink := "http://b", wbs_required := false }

/-- Sample permissive configuration used in concrete witnesses, with
the `HAS_BALKONY` variable set to the string "True". -/
def sampleCfg : FilterConfig :=
  { minimal_size := 0, maximal_base_rent := 1000,
    has_balkony := some "True", forbidden_districts := [] }

/-- A listing satisfying every criterion of the spec's filter: size 60
over the minimum 50, rent 750 under the maximum 800, balcony present
with `HAS_BALKONY` configured "True", district not excluded, no permit
required. -/
def matching_listing : Listing :=
  { listing_id := "M1", number_rooms := 3, size_qm := 60,
    base_rent := 750, address := "Musterstr. 5", district := "Mitte",
    has_balkony := true, weblink := "http://m", wbs_required := false }

/-- The configuration for `matching_listing`: minimum size 50, maximum
rent 800, `HAS_BALKONY` the env string "True", nothing excluded. -/
def matching_config : FilterConfig :=
  { minimal_size := 50, maximal_base_rent := 800,
    has_balkony := some "True", forbidden_districts := [] }

/-- A raw item whose text splits into only 2 fields: the extractor
returns the empty dict for it. -/
def short_text_item : RawItem :=
  { text := "2 Zimmer, 54 m²", attr_id := "flat-1",
    has_balkony_elem := false, link := "http://l1",
    has_wbs_elem := false }

/-- A raw item with 4 fields whose rooms token is not numeric: `float`
raises and the extractor's caller skips the item. -/
def bad_number_item : RawItem :=
  { text := "x Zimmer, 54 m², 750 €, Musterstr. 1", attr_id := "flat-2",
    has_balkony_elem := false, link := "http://l2",
    has_wbs_elem := false }

/-- A well-formed raw item with 5 fields, the last one an explicit
district. -/
def good_item : RawItem :=
  { text := "2,5 Zimmer, 54 m², 750 €, Musterstr. 1, Mitte",
    attr_id := "flat-3", has_balkony_elem := true, link := "http://l3",
    has_wbs_elem := false }

/-- The listing extracted from `good_item`. -/
def good_item_listing : Listing :=
  { listing_id := "flat-3", number_rooms := (5 : Rat)/2, size_qm := 54,
    base_rent := 750, address := "Musterstr. 1", district := "Mitte",
    has_balkony := true, weblink := "http://l3", wbs_required := false }

/-- Membership characterisation of `diff`: helper shared by the
change-detection and catalog claims. -/
theorem mem_diff_iff (current : List Listing) (old_ids : List String)
    (l : Listing) :
    l ∈ diff current old_ids ↔ l ∈ current ∧ l.listing_id ∉ old_ids := by
  simp [diff]

/-- The appended part of a cycle is either empty or exactly the diff of
the fetched batch against the known ids: helper shared by the catalog
claims. -/
theorem monitor_cycle_fst_eq (cfg : FilterConfig) (old_ids : List String)
    (current : List Listing) :
    (monitor_cycle cfg old_ids current).1 = [] ∨
    (monitor_cycle cfg old_ids current).1 = diff current old_ids := by
  by_cases h1 : current.isEmpty
  · left; simp [monitor_cycle, h1]
  · by_cases h2 : (diff current old_ids).isEmpty
    · left; simp [monitor_cycle, h1, h2]
    · right; simp [monitor_cycle, h1, h2]

/-- Timeouts at the head of the outcome list only add to the call count:
helper for the district-resolution claim. -/
theorem osm_loop_timeout_shift (address : String) (cache : List String)
    (pre tail : List OsmOutcome)
    (hpre : ∀ x ∈ pre, x = OsmOutcome.timeout) :
    osm_attempt_loop address (pre ++ tail) cache =
      ((osm_attempt_loop address tail cache).1,
       (osm_attempt_loop address tail cache).2.1,
       (osm_attempt_loop address tail cache).2.2 + pre.length) := by
  induction pre with
  | nil => simp
  | cons p ps ih =>
    have hp : p = OsmOutcome.timeout := hpre p (List.mem_cons_self p ps)
    subst hp
    have hps : ∀ x ∈ ps, x = OsmOutcome.timeout := fun x hx =>
      hpre x (List.mem_cons_of_mem _ hx)
    have hstep : osm_attempt_loop address
        (OsmOutcome.timeout :: (ps ++ tail)) cache =
        ((osm_attempt_loop address (ps ++ tail) cache).1,
         (osm_attempt_loop address (ps ++ tail) cache).2.1,
         (osm_attempt_loop address (ps ++ tail) cache).2.2 + 1) := rfl
    rw [List.cons_append, hstep, ih hps]
    simp [Nat.add_assoc]

/-- A permanently failing outcome at the head of the loop caches the
address and returns "Unknown" after exactly one call: helper for the
district-resolution claim. -/
theorem osm_loop_failure_head (address : String) (cache : List String)
    (o : OsmOutcome) (tail : List OsmOutcome)
    (ho : osm_permanent_failure o = true) :
    osm_attempt_loop address (o :: tail) cache =
      ("Unknown", cache ++ [address], 1) := by
  cases o with
  | timeout => simp [osm_permanent_failure] at ho
  | failure => rfl
  | response comps =>
    have hlt : comps.length < 5 := by
      simpa [osm_permanent_failure] using ho
    simp [osm_attempt_loop, show ¬ 5 ≤ comps.length by omega]

/-- C1, evaluated at the failing input: the balcony criterion compares
the bool listing flag to the raw env string (lines 39 and 105), an
equality that is always false in Python, so the filter rejects every
listing whatever the configuration — in particular the listing meeting
all five of the spec's criteria (size 60 ≥ 50, rent 750 ≤ 800, balcony
present with `HAS_BALKONY` set to "True", district not excluded, no
permit), which the claim says must pass. -/
theorem filter_never_passes :
    (∀ (cfg : FilterConfig) (l : Listing), passes_filter cfg l = false) ∧
    passes_filter matching_config matching_listing = false := by
  have h : ∀ (cfg : FilterConfig) (l : Listing),
      passes_filter cfg l = false := by
    intro cfg l
    simp [passes_filter, py_eq_bool_str]
  exact ⟨h, h matching_config matching_listing⟩

/-- C2: `diff` returns exactly the fetched listings whose id is not
among the known ids, as a sublist of the fetched batch (so in the
batch's original order). -/
theorem diff_is_ordered_set_difference (batch : List Listing)
    (known : List String) :
    List.Sublist (diff batch known) batch ∧
    (∀ l : Listing,
      l ∈ diff batch known ↔ l ∈ batch ∧ l.listing_id ∉ known) := by
  refine ⟨List.filter_sublist batch, ?_⟩
  intro l
  exact mem_diff_iff batch known l

/-- C7: with no catalog file, the first run persists every fetched
listing, and the following poll cycle (the same listings now being
known) appends nothing and sends no notification for them. -/
theorem first_run_persists_all_and_notifies_none (cfg : FilterConfig)
    (fetched : List Listing) :
    (∀ l ∈ fetched, l ∈ first_run_init false fetched) ∧
    monitor_cycle cfg
      ((first_run_init false fetched).map (fun l => l.listing_id)) fetched
      = ([], none) := by
  constructor
  · intro l hl
    cases fetched with
    | nil => cases hl
    | cons x xs => simpa [first_run_init] using hl
  · cases fetched with
    | nil => simp [monitor_cycle]
    | cons x xs =>
      have hdiff :
          diff (x :: xs)
            ((first_run_init false (x :: xs)).map (fun l => l.listing_id))
            = [] := by
        simp only [first_run_init, List.isEmpty_cons, if_false,
          Bool.false_eq_true]
        apply List.filter_eq_nil_iff.mpr
        intro l hl
        simp only [decide_eq_true_eq, Decidable.not_not]
        exact List.mem_map.mpr ⟨l, hl, rfl⟩
      simp [monitor_cycle, hdiff]

/-- Witness for C7 at a concrete one-listing fetch against an absent
catalog: the listing is persisted and no notification is produced. -/
theorem first_run_persists_all_and_notifies_none_witness :
    (∀ l ∈ [sampleB2], l ∈ first_run_init false [sampleB2]) ∧
    monitor_cycle sampleCfg
      ((first_run_init false [sampleB2]).map (fun l => l.listing_id))
      [sampleB2] = ([], none) :=
  first_run_persists_all_and_notifies_none sampleCfg [sampleB2]

/-- C10: a poll cycle never appends a listing whose id is already in
the catalog, so a later sighting of a persisted id adds no second row
with that id. -/
theorem append_is_duplicate_free (cfg : FilterConfig)
    (old_rows : List Listing) (current : List Listing) (x : String)
    (hx : x ∈ old_rows.map (fun l => l.listing_id)) :
    (∀ l ∈ (monitor_cycle cfg (old_rows.map (fun l => l.listing_id))
        current).1, l.listing_id ∉ old_rows.map (fun l => l.listing_id)) ∧
    ((monitor_cycle cfg (old_rows.map (fun l => l.listing_id))
        current).1.filter (fun l => l.listing_id == x)) = [] := by
  have hmem : ∀ l ∈ (monitor_cycle cfg (old_rows.map (fun l => l.listing_id))
      current).1, l.listing_id ∉ old_rows.map (fun l => l.listing_id) := by
    intro l hl
    rcases monitor_cycle_fst_eq cfg (old_rows.map (fun l => l.listing_id))
        current with h | h
    · rw [h] at hl; cases hl
    · rw [h] at hl
      exact ((mem_diff_iff _ _ l).mp hl).2
  refine ⟨hmem, ?_⟩
  apply List.filter_eq_nil_iff.mpr
  intro l hl
  simp only [beq_iff_eq]
  intro hlx
  exact hmem l hl (hlx ▸ hx)

/-- Witness for C10: catalog containing id "A1", fetch returning a
listing with the same id "A1" and a fresh "B2": nothing with id "A1" is
re-appended. -/
theorem append_is_duplicate_free_witness :
    ("A1" ∈ [sampleA1].map (fun l => l.listing_id)) ∧
    ((monitor_cycle sampleCfg ([sampleA1].map (fun l => l.listing_id))
        [sampleA1, sampleB2]).1.filter
      (fun l => l.listing_id == "A1")) = [] :=
  ⟨by simp [sampleA1],
   (append_is_duplicate_free sampleCfg [sampleA1] [sampleA1, sampleB2]
     "A1" (by simp [sampleA1])).2⟩

/-- Counterexample to C3: at exactly 5 passing listings (a count "at
most 5") the dispatcher does not render just the 5 listings: the `<`
comparison sends it to the truncation branch, which appends the line
"and 0 more listings were truncated.". -/
theorem truncation_at_five_counterexample :
    compose_messages (List.replicate 5 sampleA1) ≠
      (List.replicate 5 sampleA1).map assemble_message := by
  intro h
  have hlen := congrArg List.length h
  simp [compose_messages] at hlen

/-- C3 as amended: every listing is rendered in full only when strictly
fewer than 5 are present; with 5 or more, the first 5 are rendered and
a single trailing line counts the remaining ones ("0 more" at exactly
5); in particular 7 listings give 5 full renders plus the line "and 2
more listings were truncated.". -/
theorem truncation_amended (ls : List Listing) :
    (ls.length < 5 → compose_messages ls = ls.map assemble_message) ∧
    (5 ≤ ls.length → compose_messages ls =
      (ls.take 5).map assemble_message ++
        ["and " ++ toString (ls.length - 5) ++
          " more listings were truncated."]) ∧
    (ls.length = 7 → compose_messages ls =
      (ls.take 5).map assemble_message ++
        ["and 2 more listings were truncated."]) := by
  refine ⟨?_, ?_, ?_⟩
  · intro h
    simp [compose_messages, h]
  · intro h
    have h5 : ¬ ls.length < 5 := by omega
    simp [compose_messages, h5]
  · intro h
    have h5 : ¬ ls.length < 5 := by omega
    simp [compose_messages, h5, h]
    rfl

/-- Witness for the amended C3 at a concrete list of 7 listings. -/
theorem truncation_amended_witness :
    compose_messages (List.replicate 7 sampleA1) =
      ((List.replicate 7 sampleA1).take 5).map assemble_message ++
        ["and 2 more listings were truncated."] :=
  (truncation_amended (List.replicate 7 sampleA1)).2.2 (by simp)

/-- Counterexample to C4: with recipients "u1" and "u2" and a transport
that fails on "u1", the dispatcher stops after "u1" — "u2" is never
attempted, so a failure on one recipient does prevent sends to the
remaining recipients. -/
theorem dispatch_abort_counterexample :
    send_messages (fun v => v != "u1") ["u1", "u2"] = (["u1"], false) ∧
    "u2" ∉ (send_messages (fun v => v != "u1") ["u1", "u2"]).1 := by
  constructor
  · rfl
  · intro h
    simp [send_messages] at h

/-- C4 as amended: the composed message is sent to recipients
sequentially in configured order; a failing send is caught (the cycle
does not crash) but ends the loop, so exactly the recipients up to and
including the first failing one are attempted; when every send
succeeds, all recipients receive the message. -/
theorem dispatch_amended (sendOk : String → Bool) (pre : List String)
    (u : String) (post : List String) :
    ((∀ v ∈ pre, sendOk v = true) → sendOk u = false →
      send_messages sendOk (pre ++ u :: post) = (pre ++ [u], false)) ∧
    (∀ users : List String, (∀ v ∈ users, sendOk v = true) →
      send_messages sendOk users = (users, true)) := by
  constructor
  · intro hpre hu
    induction pre with
    | nil => simp [send_messages, hu]
    | cons p ps ih =>
      have hp : sendOk p = true := hpre p (List.mem_cons_self p ps)
      have hps : ∀ v ∈ ps, sendOk v = true := fun v hv =>
        hpre v (List.mem_cons_of_mem p hv)
      simp only [List.cons_append, send_messages, List.append_eq, hp,
        if_true, ih hps]
  · intro users hall
    induction users with
    | nil => rfl
    | cons p ps ih =>
      have hp : sendOk p = true := hall p (List.mem_cons_self p ps)
      have hps : ∀ v ∈ ps, sendOk v = true := fun v hv =>
        hall v (List.mem_cons_of_mem p hv)
      simp only [send_messages, hp, if_true, ih hps]

/-- Witness for the amended C4: recipients "u0", "u1", "u2" with the
transport failing on "u1": exactly "u0" and "u1" are attempted. -/
theorem dispatch_amended_witness :
    send_messages (fun v => v != "u1") (["u0"] ++ "u1" :: ["u2"]) =
      (["u0", "u1"], false) :=
  (dispatch_amended (fun v => v != "u1") ["u0"] "u1" ["u2"]).1
    (by decide) (by decide)

/-- C5: district resolution never raises; a cached address
short-circuits to "Unknown" with zero network calls; on a cache miss,
any non-timeout failure (after at most two leading timeouts) appends
the address to the cache exactly once, persists it and returns
"Unknown"; and a later cycle on the now-cached address leaves the cache
unchanged, so no duplicate entry arises. -/
theorem district_resolution_contract (address : String)
    (cache : List String) :
    (∀ outcomes : List OsmOutcome, address ∈ cache →
      get_district_from_osm outcomes address cache =
        ("Unknown", cache, 0)) ∧
    (∀ (pre : List OsmOutcome) (o : OsmOutcome) (rest : List OsmOutcome),
      address ∉ cache → (∀ x ∈ pre, x = OsmOutcome.timeout) →
      pre.length ≤ 2 → osm_permanent_failure o = true →
      get_district_from_osm (pre ++ o :: rest) address cache =
        ("Unknown", cache ++ [address], pre.length + 1)) ∧
    (∀ outcomes : List OsmOutcome,
      get_district_from_osm outcomes address (cache ++ [address]) =
        ("Unknown", cache ++ [address], 0)) := by
  refine ⟨?_, ?_, ?_⟩
  · intro outcomes h
    simp [get_district_from_osm, h]
  · intro pre o rest haddr hpre hlen ho
    rw [get_district_from_osm, if_neg haddr]
    have htake : (pre ++ o :: rest).take 3 =
        pre ++ o :: rest.take (2 - pre.length) := by
      rw [List.take_append_eq_append_take,
        List.take_of_length_le (by omega),
        show 3 - pre.length = (2 - pre.length) + 1 from by omega,
        List.take_succ_cons]
    rw [htake, osm_loop_timeout_shift address cache pre _ hpre,
      osm_loop_failure_head address cache o _ ho]
    simp [Nat.add_comm]
  · intro outcomes
    simp [get_district_from_osm]

/-- Witness for C5: an uncached address, one timeout then a permanent
failure: two network calls, district "Unknown", the address cached
once; a later cycle then resolves from the cache with no call. -/
theorem district_resolution_contract_witness :
    get_district_from_osm [OsmOutcome.timeout, OsmOutcome.failure]
        "Xstr. 9 Berlin" [] = ("Unknown", ["Xstr. 9 Berlin"], 2) ∧
    get_district_from_osm [] "Xstr. 9 Berlin" ["Xstr. 9 Berlin"] =
      ("Unknown", ["Xstr. 9 Berlin"], 0) :=
  ⟨by
    have h := (district_resolution_contract "Xstr. 9 Berlin" []).2.1
      [OsmOutcome.timeout] OsmOutcome.failure []
      (by simp) (by simp) (by simp) rfl
    simpa using h,
   by
    simpa using ((district_resolution_contract "Xstr. 9 Berlin" []).2.2 [])⟩

/-- C6, evaluated at the failing input: a raw item whose text splits
into fewer than 4 fields is logged with "Skipping invalid listing" but
its empty dict return value is still appended to the batch result (the
`none` entry), while an item whose numeric conversion raises is
genuinely skipped and a well-formed item yields its listing. -/
theorem extraction_appends_empty_record :
    get_listings (fun _ => "Unknown")
        [short_text_item, bad_number_item, good_item] =
      [none, some good_item_listing] ∧
    (none : Option Listing) ∈
      get_listings (fun _ => "Unknown")
        [short_text_item, bad_number_item, good_item] := by
  have h1 : get_listing_details (fun _ => "Unknown") short_text_item =
      DetailsResult.empty := rfl
  have h2 : get_listing_details (fun _ => "Unknown") bad_number_item =
      DetailsResult.error := rfl
  have h3 : get_listing_details (fun _ => "Unknown") good_item =
      DetailsResult.ok
        { listing_id := "flat-3",
          number_rooms :=
            ((2 : Nat) : Rat) + ((5 : Nat) : Rat) / (10 : Rat) ^ 1,
          size_qm := ((54 : Nat) : Rat), base_rent := ((750 : Nat) : Rat),
          address := "Musterstr. 1", district := "Mitte",
          has_balkony := true, weblink := "http://l3",
          wbs_required := false } := rfl
  have hmain : get_listings (fun _ => "Unknown")
      [short_text_item, bad_number_item, good_item] =
      [none, some good_item_listing] := by
    simp only [get_listings, h1, h2, h3]
    norm_num [good_item_listing, Listing.mk.injEq]
  exact ⟨hmain, by rw [hmain]; simp⟩

/-- Counterexample to C9: the size field "1.234,5" (thousands separator
plus decimal comma) does not parse — only the comma is normalised, the
surviving dot makes `float` raise — whereas its plain decimal-point
form denotes 1234.5. -/
theorem numeric_separator_counterexample :
    parse_size "1.234,5 m²" = none ∧
    python_float "1234.5" = some ((2469 : Rat)/2) := by
  constructor
  · rfl
  · show some (((1234 : Nat) : Rat) + ((5 : Nat) : Rat) / (10 : Rat) ^ 1) =
      some ((2469 : Rat)/2)
    norm_num

/-- C9 as amended: only the rent field removes the thousands separator
before converting the decimal comma, so "1.234,56 €" parses to the
number its plain decimal-point form denotes; rooms and size tolerate
the decimal comma alone, and a thousands separator there fails the
conversion. -/
theorem numeric_normalization_amended :
    parse_rent "1.234,56 €" = python_float "1234.56" ∧
    parse_rent "1.234,56 €" = some ((30864 : Rat)/25) ∧
    parse_rooms "2,5 Zimmer" = some ((5 : Rat)/2) ∧
    parse_size "54,5 m²" = some ((109 : Rat)/2) ∧
    parse_rooms "1.234,5" = none := by
  refine ⟨rfl, ?_, ?_, ?_, rfl⟩
  · show some (((1234 : Nat) : Rat) + ((56 : Nat) : Rat) / (10 : Rat) ^ 2) =
      some ((30864 : Rat)/25)
    norm_num
  · show some (((2 : Nat) : Rat) + ((5 : Nat) : Rat) / (10 : Rat) ^ 1) =
      some ((5 : Rat)/2)
    norm_num
  · show some (((54 : Nat) : Rat) + ((5 : Nat) : Rat) / (10 : Rat) ^ 1) =
      some ((109 : Rat)/2)
    norm_num

/-- Counterexample to C8: appending an empty list of listings is not a
no-op — `listings[0]` raises an uncaught `IndexError` before anything
is written. -/
theorem append_empty_raises_counterexample :
    save_listings_to_csv false [] "2026-01-01 00:00:00" [] =
      Except.error "IndexError: list index out of range" := rfl

/-- C8 as amended: on empty input the append raises `IndexError` (every
call site guards with a non-emptiness check); on non-empty input with
no existing store file, a well-formed header row is written before the
data rows. -/
theorem append_header_amended (file_rows : List (List String))
    (timestamp : String) (l : Listing) (ls : List Listing) :
    save_listings_to_csv false file_rows timestamp [] =
      Except.error "IndexError: list index out of range" ∧
    save_listings_to_csv false file_rows timestamp (l :: ls) =
      Except.ok (file_rows ++
        listing_fieldnames :: (l :: ls).map (csv_row timestamp)) := by
  exact ⟨rfl, rfl⟩

end CheckForUpdate
